import Mathlib

/-!
Verification of the metrics-derivation pipeline of `src/app.py`
(`load_and_process_data`, lines 31-76), the sidebar filter / log-scale
sanitization step (lines 111-120), and the insight-card ratio guards
(lines 308-309).

Numeric cells are modelled as rationals (`ℚ`); a pandas `NaN` cell is
modelled as `Option.none`.  A CSV numeric cell is either an integer token
or a float token (`PyNum`): pandas infers the column dtype `float64` as
soon as one cell of the column is a float token, and `int64` otherwise,
which changes what `astype(str)` prints (`4` vs `4.0`).
-/

/-- A numeric CSV cell as parsed by `pandas.read_csv`: an integer token
(`int64` candidate) or a float token. -/
inductive PyNum where
  | int : ℤ → PyNum
  | float : ℚ → PyNum
deriving DecidableEq

def PyNum.isFloat : PyNum → Bool
  | .float _ => true
  | .int _ => false

def PyNum.toRat : PyNum → ℚ
  | .int n => (n : ℚ)
  | .float q => q

/-- `astype(int)` on one numeric cell: floats are truncated toward zero
(numpy float→int64 cast). -/
def PyNum.toIntTrunc : PyNum → ℤ
  | .int n => n
  | .float q => Int.tdiv q.num (q.den : ℤ)

/-- The string Python prints for a float64 whose value is a short decimal
(up to six fractional digits): integer part, a dot, and the fractional
digits with trailing zeros removed — `.0` when the value is integral.
Models `str()` / `astype(str)` on the decimal-valued cells a CSV holds. -/
def pyFloatStr (q : ℚ) : String :=
  let sign := if q.num < 0 then "-" else ""
  let n : ℕ := q.num.natAbs
  let d : ℕ := q.den
  let ip : ℕ := n / d
  let scaled : ℕ := n % d * 1000000 / d
  let ds := (Nat.toDigits 10 (1000000 + scaled)).drop 1
  let kept := (ds.reverse.dropWhile (fun c => c = '0')).reverse
  let fracStr := if kept.isEmpty then "0" else String.mk kept
  sign ++ toString ip ++ "." ++ fracStr

/-- `astype(str)` on one cell of the `capacity` column (app.py line 48).
The whole column is float64 when any of its cells is a float token, and
then every cell prints in float form (`"4.0"`); in an integer column each
cell prints as the plain decimal (`"4"`). -/
def capCellStr (isFloatCol : Bool) (c : PyNum) : String :=
  match c with
  | .int n => if isFloatCol then pyFloatStr (n : ℚ) else toString n
  | .float q => pyFloatStr q

/-- Which columns the CSV holds (pandas: a column is either present for
every row or absent from the whole frame). -/
structure Schema where
  hasLambda : Bool
  hasCapacity : Bool
  hasAvgLatency : Bool
  hasP99 : Bool
  hasThroughput : Bool
  hasQuality : Bool
  hasBasePolicy : Bool
  hasPolicyKey : Bool
deriving DecidableEq

/-- One raw CSV row.  A field is meaningful only when the corresponding
`Schema` flag is set. -/
structure RawRow where
  lam : ℚ
  capacity : PyNum
  avg_latency_ms : ℚ
  p99_latency_ms : ℚ
  throughput_req_s : ℚ
  avg_quality : ℚ
  base_policy : String
  policy_key : String
deriving DecidableEq

structure RawTable where
  schema : Schema
  rows : List RawRow
deriving DecidableEq

/-- One row of the enriched dataframe produced by `load_and_process_data`.
`Option ℚ` fields: `none` is a `NaN` cell (or, for `p99_latency_ms` /
`avg_quality`, a column absent from the source — the two are handled
identically by every consumer modelled here). -/
structure EnrichedRow where
  lam : ℚ
  capacity : String
  capacity_int : ℤ
  avg_latency_ms : Option ℚ
  p99_latency_ms : Option ℚ
  throughput_req_s : ℚ
  avg_quality : Option ℚ
  policyName : String
  hourly_cost_usd : ℚ
  hourly_throughput : ℚ
  cost_per_1k_req : Option ℚ
  est_system_load : Option ℚ
deriving DecidableEq

/-- The `policy_map` dict (app.py lines 50-56). -/
def policy_map (code : String) : Option String :=
  if code = "high" then some "Static High (FCFS)"
  else if code = "fast" then some "Static Fast (FCFS)"
  else if code = "smart" then some "Adaptive (Threshold)"
  else if code = "sjf" then some "SJF (Shortest Job First)"
  else if code = "smart_as" then some "Auto-Scaling"
  else none

def GPU_HOURLY_COST : ℚ := 35 / 100

/-- The per-row body of `load_and_process_data` (app.py lines 47-71):
capacity cleaning, `.map(policy_map).fillna(...)` policy renaming, and the
four derived engineering metrics.  `useBase` records which policy column
line 57 selected; `isFloatCol` is the dtype of the whole capacity column. -/
def enrichRow (isFloatCol useBase hasP99 hasQuality : Bool) (r : RawRow) :
    EnrichedRow :=
  let cint := r.capacity.toIntTrunc
  let code := if useBase then r.base_policy else r.policy_key
  let hourly_cost : ℚ := (cint : ℚ) * GPU_HOURLY_COST
  let hourly_thr : ℚ := r.throughput_req_s * 3600
  { lam := r.lam
    capacity := capCellStr isFloatCol r.capacity
    capacity_int := cint
    avg_latency_ms := some r.avg_latency_ms
    p99_latency_ms := if hasP99 then some r.p99_latency_ms else none
    throughput_req_s := r.throughput_req_s
    avg_quality := if hasQuality then some r.avg_quality else none
    policyName := (policy_map code).getD code
    hourly_cost_usd := hourly_cost
    hourly_throughput := hourly_thr
    cost_per_1k_req :=
      if hourly_thr > 0 then some (hourly_cost / hourly_thr * 1000) else none
    est_system_load := some (r.lam * (r.avg_latency_ms / 1000)) }

/-- `load_and_process_data` from the dataframe level (app.py lines 43-76).
The whole body runs inside `try/except`, which catches any `KeyError` from
a missing column and returns `None`; the columns the body actually reads
are `capacity` (line 47), the policy column line 57 picks (`base_policy`
when present, else `policy_key`), `throughput_req_s` (line 63), `lambda`
and `avg_latency_ms` (line 71).  `p99_latency_ms` and `avg_quality` are
never read, so their absence raises nothing. -/
def load_and_process_data (t : RawTable) : Option (List EnrichedRow) :=
  if t.schema.hasCapacity
      && (t.schema.hasBasePolicy || t.schema.hasPolicyKey)
      && t.schema.hasThroughput && t.schema.hasLambda
      && t.schema.hasAvgLatency then
    some (t.rows.map
      (enrichRow (t.rows.any fun r => r.capacity.isFloat)
        t.schema.hasBasePolicy t.schema.hasP99 t.schema.hasQuality))
  else none

/-- The sidebar filter (app.py lines 111-114): keep the rows whose policy
label and capacity string are both selected. -/
def filterRows (selPolicies selCaps : List String) (rows : List EnrichedRow) :
    List EnrichedRow :=
  rows.filter fun r =>
    selPolicies.contains r.policyName && selCaps.contains r.capacity

/-- One cell of `filtered_df.loc[filtered_df[c] <= 0, c] = np.nan`
(app.py line 120): a non-positive value becomes `NaN`; a `NaN` cell is not
selected by the mask (`NaN <= 0` is false) and stays `NaN`. -/
def sanitizeCell (c : Option ℚ) : Option ℚ :=
  match c with
  | some v => if v ≤ 0 then none else some v
  | none => none

/-- Line 118's loop over the four log-axis columns, on one row.  The
`if c in filtered_df.columns` guard of line 119 is absorbed: an absent
column is modelled by `none` cells, and `sanitizeCell none = none`. -/
def sanitizeRow (r : EnrichedRow) : EnrichedRow :=
  { r with
    p99_latency_ms := sanitizeCell r.p99_latency_ms
    avg_latency_ms := sanitizeCell r.avg_latency_ms
    cost_per_1k_req := sanitizeCell r.cost_per_1k_req
    est_system_load := sanitizeCell r.est_system_load }

/-- The two dataframes alive after the sidebar block: the canonical
enriched table `df` and the displayed view `filtered_df` (a `.copy()`,
line 114). -/
structure DashState where
  df : List EnrichedRow
  filtered_df : List EnrichedRow
deriving DecidableEq

/-- App.py lines 111-120: build `filtered_df` as a copy of the filtered
selection of `df`, then, only when the log-scale toggle is on, overwrite
the non-positive cells of the four log-axis columns with `NaN`.  `df`
itself is never written. -/
def applyView (use_log_scale : Bool) (selPolicies selCaps : List String)
    (df : List EnrichedRow) : DashState :=
  let fdf := filterRows selPolicies selCaps df
  { df := df
    filtered_df := if use_log_scale then fdf.map sanitizeRow else fdf }

/-- Python truthiness of a possibly-`NaN` float (`NaN` is truthy,
`0.0` is falsy). -/
def pyTruthy (x : Option ℚ) : Bool :=
  match x with
  | none => true
  | some v => v ≠ 0

/-- Python `x > 0` on a possibly-`NaN` float (`NaN > 0` is false). -/
def pyPos (x : Option ℚ) : Bool :=
  match x with
  | none => false
  | some v => 0 < v

/-- App.py line 308:
`speedup = (high_p99 / sjf_p99) if (sjf_p99 and sjf_p99 > 0) else np.nan`.
A `NaN` operand of the division yields `NaN`. -/
def speedup (high_p99 sjf_p99 : Option ℚ) : Option ℚ :=
  if pyTruthy sjf_p99 && pyPos sjf_p99 then
    match high_p99, sjf_p99 with
    | some h, some s => some (h / s)
    | _, _ => none
  else none

/-- App.py line 309: `cost_saving = ((high_cost - sjf_cost) / high_cost
* 100) if (high_cost and high_cost > 0) else np.nan`. -/
def cost_saving (high_cost sjf_cost : Option ℚ) : Option ℚ :=
  if pyTruthy high_cost && pyPos high_cost then
    match high_cost, sjf_cost with
    | some h, some s => some ((h - s) / h * 100)
    | _, _ => none
  else none

/-! ### Helper lemmas and concrete tables -/

theorem load_rows_eq (t : RawTable) (et : List EnrichedRow)
    (h : load_and_process_data t = some et) :
    et = t.rows.map
      (enrichRow (t.rows.any fun x => x.capacity.isFloat)
        t.schema.hasBasePolicy t.schema.hasP99 t.schema.hasQuality) := by
  unfold load_and_process_data at h
  split at h
  · exact (Option.some.inj h).symm
  · exact absurd h (by simp)

theorem mem_load_cases (t : RawTable) (et : List EnrichedRow)
    (h : load_and_process_data t = some et) (r : EnrichedRow) (hr : r ∈ et) :
    ∃ raw ∈ t.rows,
      enrichRow (t.rows.any fun x => x.capacity.isFloat)
        t.schema.hasBasePolicy t.schema.hasP99 t.schema.hasQuality raw = r := by
  rw [load_rows_eq t et h] at hr
  exact List.mem_map.mp hr

/-- Schema of a CSV holding the six required columns plus `base_policy`. -/
def fullSchema : Schema :=
  { hasLambda := true, hasCapacity := true, hasAvgLatency := true,
    hasP99 := true, hasThroughput := true, hasQuality := true,
    hasBasePolicy := true, hasPolicyKey := false }

/-- The end-to-end scenario row of the spec. -/
def exRow : RawRow :=
  { lam := 10, capacity := .int 2, avg_latency_ms := 200,
    p99_latency_ms := 400, throughput_req_s := 8, avg_quality := 32,
    base_policy := "high", policy_key := "" }

def exTable : RawTable := { schema := fullSchema, rows := [exRow] }

/-- A row with `lambda = 2`, `avg_latency_ms = 500` (C1's spot check). -/
def w1Row : RawRow :=
  { lam := 2, capacity := .int 1, avg_latency_ms := 500,
    p99_latency_ms := 900, throughput_req_s := 4, avg_quality := 31,
    base_policy := "sjf", policy_key := "" }

def w1Table : RawTable := { schema := fullSchema, rows := [w1Row] }

/-- A row with zero throughput (C2's undefined-cost case). -/
def w2Row : RawRow :=
  { lam := 5, capacity := .int 3, avg_latency_ms := 100,
    p99_latency_ms := 250, throughput_req_s := 0, avg_quality := 33,
    base_policy := "fast", policy_key := "" }

def w2Table : RawTable := { schema := fullSchema, rows := [w2Row] }

/-! ### C1 -/

/-- C1: for every row of a successfully derived table, `est_system_load`
is exactly `lambda * (avg_latency_ms / 1000)` (the unit-corrected Little's
Law estimate, app.py line 71); in particular a row with `lambda = 2` and
`avg_latency_ms = 500` gets `est_system_load = 1`. -/
theorem C1_est_system_load (t : RawTable) (et : List EnrichedRow)
    (h : load_and_process_data t = some et) (r : EnrichedRow) (hr : r ∈ et) :
    (∃ a, r.avg_latency_ms = some a ∧
        r.est_system_load = some (r.lam * (a / 1000))) ∧
    (r.lam = 2 → r.avg_latency_ms = some 500 → r.est_system_load = some 1) := by
  obtain ⟨raw, hraw, hre⟩ := mem_load_cases t et h r hr
  subst hre
  refine ⟨⟨raw.avg_latency_ms, by simp [enrichRow], by simp [enrichRow]⟩, ?_⟩
  intro h1 h2
  simp only [enrichRow] at h1 h2 ⊢
  rw [Option.some.injEq] at h2
  rw [h1, h2]
  norm_num

/-- C1 witness: the theorem applied to the one-row table with
`lambda = 2`, `avg_latency_ms = 500`. -/
theorem C1_witness :
    ∃ et, load_and_process_data w1Table = some et ∧
      ∃ r ∈ et, r.est_system_load = some 1 := by
  have hload : load_and_process_data w1Table =
      some [enrichRow false true true true w1Row] := by
    simp [load_and_process_data, w1Table, fullSchema, w1Row, PyNum.isFloat]
  refine ⟨_, hload, enrichRow false true true true w1Row,
    List.mem_singleton.mpr rfl, ?_⟩
  exact (C1_est_system_load w1Table _ hload _ (List.mem_singleton.mpr rfl)).2
    (by simp [enrichRow, w1Row]) (by simp [enrichRow, w1Row])

/-! ### C2 -/

/-- C2: for every row of a successfully derived table, `cost_per_1k_req`
equals `hourly_cost_usd / hourly_throughput * 1000` when
`hourly_throughput > 0`, and is the missing marker (`NaN`, modelled as
`none`) when `hourly_throughput = 0` — never the value `0`, and never a
raised error (app.py lines 64-67). -/
theorem C2_cost_per_1k_req (t : RawTable) (et : List EnrichedRow)
    (h : load_and_process_data t = some et) (r : EnrichedRow) (hr : r ∈ et) :
    (0 < r.hourly_throughput →
        r.cost_per_1k_req =
          some (r.hourly_cost_usd / r.hourly_throughput * 1000)) ∧
    (r.hourly_throughput = 0 → r.cost_per_1k_req = none) := by
  obtain ⟨raw, hraw, hre⟩ := mem_load_cases t et h r hr
  subst hre
  simp only [enrichRow]
  constructor
  · intro hpos
    rw [if_pos hpos]
  · intro h0
    rw [h0]
    norm_num

/-- C2 witness: the theorem applied to the one-row table whose
`throughput_req_s` is `0`: its `cost_per_1k_req` is the missing marker. -/
theorem C2_witness :
    ∃ et, load_and_process_data w2Table = some et ∧
      ∃ r ∈ et, r.cost_per_1k_req = none := by
  have hload : load_and_process_data w2Table =
      some [enrichRow false true true true w2Row] := by
    simp [load_and_process_data, w2Table, fullSchema, w2Row, PyNum.isFloat]
  refine ⟨_, hload, enrichRow false true true true w2Row,
    List.mem_singleton.mpr rfl, ?_⟩
  exact (C2_cost_per_1k_req w2Table _ hload _ (List.mem_singleton.mpr rfl)).2
    (by simp [enrichRow, w2Row])

/-! ### C3 -/

/-- Schema holding the six required columns but neither policy column. -/
def c3Schema : Schema :=
  { hasLambda := true, hasCapacity := true, hasAvgLatency := true,
    hasP99 := true, hasThroughput := true, hasQuality := true,
    hasBasePolicy := false, hasPolicyKey := false }

def c3Table : RawTable := { schema := c3Schema, rows := [exRow] }

/-- Schema with `policy_key` as the only policy column. -/
def w3Schema : Schema :=
  { hasLambda := true, hasCapacity := true, hasAvgLatency := true,
    hasP99 := true, hasThroughput := true, hasQuality := true,
    hasBasePolicy := false, hasPolicyKey := true }

/-- A row whose policy code `"custom_x"` is outside the mapping. -/
def w3Row : RawRow :=
  { lam := 6, capacity := .int 2, avg_latency_ms := 150,
    p99_latency_ms := 300, throughput_req_s := 5, avg_quality := 30,
    base_policy := "", policy_key := "custom_x" }

def w3Table : RawTable := { schema := w3Schema, rows := [w3Row] }

/-- C3 counterexample: on a table with the six required columns but
neither `base_policy` nor `policy_key`, the code never produces a row
labelled `"Unknown Policy"`: line 58's `df[col_to_map]` raises `KeyError`,
the `except` branch returns `None`, and no enriched table exists at all.
The string `"Unknown Policy"` occurs nowhere in app.py. -/
theorem C3_counterexample :
    load_and_process_data c3Table = none ∧
    ¬ ∃ et, load_and_process_data c3Table = some et ∧
        et ≠ [] ∧ ∀ r ∈ et, r.policyName = "Unknown Policy" := by
  have h : load_and_process_data c3Table = none := by
    simp [load_and_process_data, c3Table, c3Schema]
  refine ⟨h, ?_⟩
  rintro ⟨et, he, -, -⟩
  rw [h] at he
  exact Option.noConfusion he

/-- C3 amended: `policy_name` is resolved from `base_policy` when that
column is present, else from `policy_key`, via the fixed five-entry
mapping, with codes outside the mapping passing through verbatim
(`.map(policy_map).fillna(...)`, app.py lines 50-58); but when neither
policy column is present the whole derivation fails and returns no table
(the placeholder `"Unknown Policy"` is never produced). -/
theorem C3_policy_resolution (t : RawTable) (et : List EnrichedRow)
    (h : load_and_process_data t = some et) :
    (∀ r ∈ et, ∃ raw ∈ t.rows,
        r.policyName =
          (policy_map (if t.schema.hasBasePolicy then raw.base_policy
            else raw.policy_key)).getD
            (if t.schema.hasBasePolicy then raw.base_policy
              else raw.policy_key)) ∧
    policy_map "high" = some "Static High (FCFS)" ∧
    policy_map "fast" = some "Static Fast (FCFS)" ∧
    policy_map "smart" = some "Adaptive (Threshold)" ∧
    policy_map "sjf" = some "SJF (Shortest Job First)" ∧
    policy_map "smart_as" = some "Auto-Scaling" ∧
    (∀ code, policy_map code = none → (policy_map code).getD code = code) ∧
    (∀ t2 : RawTable, t2.schema.hasBasePolicy = false →
        t2.schema.hasPolicyKey = false → load_and_process_data t2 = none) := by
  refine ⟨?_, by decide, by decide, by decide, by decide, by decide,
    ?_, ?_⟩
  · intro r hr
    obtain ⟨raw, hraw, hre⟩ := mem_load_cases t et h r hr
    subst hre
    refine ⟨raw, hraw, ?_⟩
    cases hb : t.schema.hasBasePolicy <;> simp [enrichRow, hb]
  · intro code hc
    rw [hc]
    rfl
  · intro t2 h1 h2
    simp [load_and_process_data, h1, h2]

/-- C3 witness: the theorem applied to a table keyed by `policy_key` with
the unmapped code `"custom_x"` (verbatim pass-through), plus the mapping
entry for `"sjf"` and the failure on the no-policy-column table. -/
theorem C3_witness :
    policy_map "sjf" = some "SJF (Shortest Job First)" ∧
    (∃ et, load_and_process_data w3Table = some et ∧
        ∃ r ∈ et, r.policyName = "custom_x") ∧
    load_and_process_data c3Table = none := by
  have hload : load_and_process_data w3Table =
      some [enrichRow false false true true w3Row] := by
    simp [load_and_process_data, w3Table, w3Schema, w3Row, PyNum.isFloat]
  have hthm := C3_policy_resolution w3Table _ hload
  refine ⟨hthm.2.2.2.2.1, ⟨_, hload, enrichRow false false true true w3Row,
    List.mem_singleton.mpr rfl, ?_⟩, hthm.2.2.2.2.2.2.2 c3Table rfl rfl⟩
  obtain ⟨raw, hraw, heq⟩ :=
    hthm.1 (enrichRow false false true true w3Row) (List.mem_singleton.mpr rfl)
  have hraw2 : raw = w3Row := by simpa [w3Table] using hraw
  subst hraw2
  rw [heq]
  decide

/-! ### C4 -/

/-- The end-to-end row with its capacity written in float form (`4.0`). -/
def c4Row : RawRow :=
  { lam := 10, capacity := .float 4, avg_latency_ms := 200,
    p99_latency_ms := 400, throughput_req_s := 8, avg_quality := 32,
    base_policy := "high", policy_key := "" }

def c4Table : RawTable := { schema := fullSchema, rows := [c4Row] }

/-- C4 counterexample: line 48 stringifies the ORIGINAL `capacity` column
(`df["capacity"].astype(str)`), not the parsed integer; a capacity that
arrives in float form `4.0` is therefore output as `"4.0"`, not as the
canonical decimal string `"4"` the claim requires (while `capacity_int`
is still `4`). -/
theorem C4_counterexample :
    (load_and_process_data c4Table).map
        (List.map fun r => (r.capacity, r.capacity_int)) =
      some [("4.0", 4)] ∧ ("4.0" : String) ≠ "4" := by
  have hload : load_and_process_data c4Table =
      some [enrichRow true true true true c4Row] := by
    simp [load_and_process_data, c4Table, fullSchema, c4Row, PyNum.isFloat]
  rw [hload]
  exact ⟨by decide, by decide⟩

/-- C4 amended: `capacity_int` is always the integer value of the raw
capacity cell (floats truncated toward zero), and the output `capacity`
string is pandas' rendering of the ORIGINAL column: when the capacity
column is integer-typed (no float-form cell in it) it coincides with the
decimal string of `capacity_int` (input `4` → `"4"`), but a float-form
input such as `4.0` keeps its float rendering `"4.0"`. -/
theorem C4_capacity (t : RawTable) (et : List EnrichedRow)
    (h : load_and_process_data t = some et) :
    (∀ r ∈ et, ∃ raw ∈ t.rows, r.capacity_int = raw.capacity.toIntTrunc ∧
        r.capacity =
          capCellStr (t.rows.any fun x => x.capacity.isFloat) raw.capacity) ∧
    ((t.rows.any fun x => x.capacity.isFloat) = false →
        ∀ r ∈ et, r.capacity = toString r.capacity_int) := by
  constructor
  · intro r hr
    obtain ⟨raw, hraw, hre⟩ := mem_load_cases t et h r hr
    subst hre
    exact ⟨raw, hraw, by simp [enrichRow], by simp [enrichRow]⟩
  · intro hnf r hr
    obtain ⟨raw, hraw, hre⟩ := mem_load_cases t et h r hr
    subst hre
    rw [hnf]
    cases hc : raw.capacity with
    | int n => simp [enrichRow, capCellStr, PyNum.toIntTrunc, hc]
    | float q =>
      exfalso
      have hany : (t.rows.any fun x => x.capacity.isFloat) = true :=
        List.any_eq_true.mpr ⟨raw, hraw, by rw [hc]; rfl⟩
      rw [hnf] at hany
      exact Bool.noConfusion hany

/-- C4 witness: the theorem applied to the integer-capacity table
(capacity cell `3` → string `"3"`, `capacity_int = 3`). -/
theorem C4_witness :
    ∃ et, load_and_process_data w2Table = some et ∧
      ∃ r ∈ et, r.capacity = "3" ∧ r.capacity_int = 3 := by
  have hload : load_and_process_data w2Table =
      some [enrichRow false true true true w2Row] := by
    simp [load_and_process_data, w2Table, fullSchema, w2Row, PyNum.isFloat]
  refine ⟨_, hload, enrichRow false true true true w2Row,
    List.mem_singleton.mpr rfl, ?_, by decide⟩
  have h2 := (C4_capacity w2Table _ hload).2
    (by simp [w2Table, w2Row, PyNum.isFloat])
    (enrichRow false true true true w2Row) (List.mem_singleton.mpr rfl)
  rw [h2]
  decide

/-! ### C5 -/

/-- Schema missing two of the six "required" columns: `p99_latency_ms`
and `avg_quality`. -/
def c5Schema : Schema :=
  { hasLambda := true, hasCapacity := true, hasAvgLatency := true,
    hasP99 := false, hasThroughput := true, hasQuality := false,
    hasBasePolicy := true, hasPolicyKey := false }

def c5Table : RawTable := { schema := c5Schema, rows := [exRow] }

/-- Schema missing the `capacity` column. -/
def ncSchema : Schema :=
  { hasLambda := true, hasCapacity := false, hasAvgLatency := true,
    hasP99 := true, hasThroughput := true, hasQuality := true,
    hasBasePolicy := true, hasPolicyKey := false }

def ncTable : RawTable := { schema := ncSchema, rows := [exRow] }

/-- C5 counterexample: a table missing `p99_latency_ms` and `avg_quality`
— two of the claim's six required columns — is derived successfully, not
rejected: the code has no schema check at all (no `SchemaError` class
exists in app.py), and lines 47-71 never read those two columns, so no
exception is raised. -/
theorem C5_counterexample :
    c5Table.schema.hasP99 = false ∧ c5Table.schema.hasQuality = false ∧
    (load_and_process_data c5Table).isSome = true := by
  refine ⟨rfl, rfl, ?_⟩
  simp [load_and_process_data, c5Table, c5Schema]

/-- C5 amended: derivation fails (the `try/except` catches the `KeyError`
and the function returns `None` — there is no `SchemaError` type) exactly
when one of the columns the body actually reads is missing: `capacity`,
`lambda`, `avg_latency_ms`, `throughput_req_s`, or both policy columns at
once; whereas `p99_latency_ms` and `avg_quality` are never checked, so a
table missing them is still processed and rows are produced. -/
theorem C5_required_columns (t : RawTable) :
    (t.schema.hasCapacity = false → load_and_process_data t = none) ∧
    (t.schema.hasLambda = false → load_and_process_data t = none) ∧
    (t.schema.hasAvgLatency = false → load_and_process_data t = none) ∧
    (t.schema.hasThroughput = false → load_and_process_data t = none) ∧
    (t.schema.hasBasePolicy = false → t.schema.hasPolicyKey = false →
        load_and_process_data t = none) ∧
    (t.schema.hasCapacity = true → t.schema.hasLambda = true →
      t.schema.hasAvgLatency = true → t.schema.hasThroughput = true →
      t.schema.hasBasePolicy = true →
        (load_and_process_data t).isSome = true) :=
  ⟨fun h1 => by simp [load_and_process_data, h1],
    fun h1 => by simp [load_and_process_data, h1],
    fun h1 => by simp [load_and_process_data, h1],
    fun h1 => by simp [load_and_process_data, h1],
    fun h1 h2 => by simp [load_and_process_data, h1, h2],
    fun h1 h2 h3 h4 h5 => by simp [load_and_process_data, h1, h2, h3, h4, h5]⟩

/-- C5 witness: the theorem applied to the no-`capacity` table (fails) and
to the table missing only `p99_latency_ms`/`avg_quality` (succeeds). -/
theorem C5_witness :
    load_and_process_data ncTable = none ∧
    (load_and_process_data c5Table).isSome = true :=
  ⟨(C5_required_columns ncTable).1 rfl,
    (C5_required_columns c5Table).2.2.2.2.2 rfl rfl rfl rfl rfl⟩

/-! ### C6 -/

/-- C6: a successful derivation yields exactly one enriched row per input
row, in the same order (row `i` carries input row `i`'s fields), with
`hourly_cost_usd = capacity_int * 0.35` and
`hourly_throughput = throughput_req_s * 3600` (app.py lines 60-63); and
the end-to-end scenario row (`lambda 10`, capacity `2`, latency `200` ms,
throughput `8` req/s, policy `"high"`) yields the enriched values the spec
lists, with `cost_per_1k_req` within `10⁻⁴` of `0.0243`. -/
theorem C6_shape_and_example (t : RawTable) (et : List EnrichedRow)
    (h : load_and_process_data t = some et) :
    et.length = t.rows.length ∧
    (∀ i (hi : i < t.rows.length) (he : i < et.length),
        (et.get ⟨i, he⟩).lam = (t.rows.get ⟨i, hi⟩).lam ∧
        (et.get ⟨i, he⟩).throughput_req_s =
          (t.rows.get ⟨i, hi⟩).throughput_req_s) ∧
    (∀ r ∈ et, r.hourly_cost_usd = (r.capacity_int : ℚ) * (35 / 100) ∧
        r.hourly_throughput = r.throughput_req_s * 3600) ∧
    (∃ r, load_and_process_data exTable = some [r] ∧
        r.policyName = "Static High (FCFS)" ∧ r.capacity = "2" ∧
        r.hourly_cost_usd = 7 / 10 ∧ r.hourly_throughput = 28800 ∧
        (∃ c, r.cost_per_1k_req = some c ∧ |c - 243 / 10000| < 1 / 10000) ∧
        r.est_system_load = some 2) := by
  have heq := load_rows_eq t et h
  refine ⟨by simp [heq], ?_, ?_, ?_⟩
  · subst heq
    intro i hi he
    constructor <;> simp [List.get_eq_getElem, List.getElem_map, enrichRow]
  · intro r hr
    obtain ⟨raw, hraw, hre⟩ := mem_load_cases t et h r hr
    subst hre
    exact ⟨by simp [enrichRow, GPU_HOURLY_COST], by simp [enrichRow]⟩
  · have hload : load_and_process_data exTable =
        some [enrichRow false true true true exRow] := by
      simp [load_and_process_data, exTable, fullSchema, exRow, PyNum.isFloat]
    refine ⟨enrichRow false true true true exRow, hload, ?_, ?_, ?_, ?_, ?_, ?_⟩
    · simp [enrichRow, policy_map, exRow]
    · simp [enrichRow, exRow, capCellStr]
      decide
    · simp [enrichRow, exRow, PyNum.toIntTrunc, GPU_HOURLY_COST]
      norm_num
    · simp [enrichRow, exRow]
      norm_num
    · refine ⟨7 / 288, ?_, ?_⟩
      · simp [enrichRow, exRow, PyNum.toIntTrunc, GPU_HOURLY_COST]
        norm_num
      · rw [abs_lt]
        constructor <;> norm_num
    · simp [enrichRow, exRow]
      norm_num

/-- C6 witness: the theorem applied to the end-to-end scenario table. -/
theorem C6_witness :
    ∃ r, load_and_process_data exTable = some [r] ∧
      r.policyName = "Static High (FCFS)" ∧ r.est_system_load = some 2 := by
  have hload : load_and_process_data exTable =
      some [enrichRow false true true true exRow] := by
    simp [load_and_process_data, exTable, fullSchema, exRow, PyNum.isFloat]
  obtain ⟨r, hr, h1, h2, h3, h4, h5, h6⟩ :=
    (C6_shape_and_example exTable _ hload).2.2.2
  exact ⟨r, hr, h1, h6⟩

/-! ### C7 -/

/-- C7: log-scale sanitization (app.py lines 117-120) replaces each
non-positive value of a log-axis field by the missing marker `NaN` and
leaves each positive value unchanged, and it is applied to the displayed
copy only (`filtered_df = df[...].copy()`, line 114): the canonical
enriched table `df` is unchanged by the whole view step. -/
theorem C7_log_sanitization (use_log_scale : Bool)
    (selPolicies selCaps : List String) (df : List EnrichedRow) :
    (applyView use_log_scale selPolicies selCaps df).df = df ∧
    (∀ v : ℚ, v ≤ 0 → sanitizeCell (some v) = none) ∧
    (∀ v : ℚ, 0 < v → sanitizeCell (some v) = some v) := by
  refine ⟨rfl, ?_, ?_⟩
  · intro v hv
    simp [sanitizeCell, hv]
  · intro v hv
    simp only [sanitizeCell]
    rw [if_neg (not_le.mpr hv)]

/-- C7 witness: the theorem applied to the values `0`, `-5` and `12.3` and
to a concrete view. -/
theorem C7_witness :
    (applyView true ["SJF (Shortest Job First)"] ["1"] []).df = ([] : List EnrichedRow) ∧
    sanitizeCell (some 0) = none ∧
    sanitizeCell (some (-5)) = none ∧
    sanitizeCell (some (123 / 10)) = some (123 / 10) :=
  ⟨(C7_log_sanitization true ["SJF (Shortest Job First)"] ["1"] []).1,
    (C7_log_sanitization true [] [] []).2.1 0 le_rfl,
    (C7_log_sanitization false [] [] []).2.1 (-5) (by norm_num),
    (C7_log_sanitization false [] [] []).2.2 (123 / 10) (by norm_num)⟩

/-! ### C8 -/

/-- C8: the derivation is deterministic and referentially transparent: it
is a pure function of the parsed table (the body of
`load_and_process_data` only reads the CSV; `@st.cache_data` memoizes the
very same pure computation), so two invocations on identical input
produce identical enriched output. -/
theorem C8_deterministic (t₁ t₂ : RawTable) (h : t₁ = t₂) :
    load_and_process_data t₁ = load_and_process_data t₂ := by
  rw [h]

/-- C8 witness: the theorem applied to the scenario table twice. -/
theorem C8_witness :
    load_and_process_data exTable = load_and_process_data exTable :=
  C8_deterministic exTable exTable rfl

/-! ### C9 -/

/-- C9: sanitization is scoped — with the toggle off the filtered view is
exactly the filtered selection, with no value replaced; with the toggle on
only the four columns `p99_latency_ms`, `avg_latency_ms`,
`cost_per_1k_req`, `est_system_load` are rewritten (`sanitizeRow`), and
every other column (`lambda`, `capacity`, `capacity_int`,
`throughput_req_s`, `avg_quality`, `Policy Name`, `hourly_cost_usd`,
`hourly_throughput`) keeps its value on every row, non-positive or not. -/
theorem C9_sanitization_scope (selPolicies selCaps : List String)
    (df : List EnrichedRow) (r : EnrichedRow) :
    (applyView false selPolicies selCaps df).filtered_df =
      filterRows selPolicies selCaps df ∧
    (applyView true selPolicies selCaps df).filtered_df =
      (filterRows selPolicies selCaps df).map sanitizeRow ∧
    (sanitizeRow r).lam = r.lam ∧
    (sanitizeRow r).capacity = r.capacity ∧
    (sanitizeRow r).capacity_int = r.capacity_int ∧
    (sanitizeRow r).throughput_req_s = r.throughput_req_s ∧
    (sanitizeRow r).avg_quality = r.avg_quality ∧
    (sanitizeRow r).policyName = r.policyName ∧
    (sanitizeRow r).hourly_cost_usd = r.hourly_cost_usd ∧
    (sanitizeRow r).hourly_throughput = r.hourly_throughput :=
  ⟨rfl, rfl, rfl, rfl, rfl, rfl, rfl, rfl, rfl, rfl⟩

/-! ### C10 -/

/-- C10: the insight-card ratios (app.py lines 308-309) are
division-guarded: the speedup `high_p99 / sjf_p99` is produced only when
`sjf_p99 > 0` (a zero, negative or `NaN` `sjf_p99` yields `NaN`), and the
cost saving `(high_cost - sjf_cost) / high_cost * 100` only when
`high_cost > 0` (a zero or `NaN` `high_cost` yields `NaN`); both
computations are total, so no division-by-zero error is raised. -/
theorem C10_insight_guards (hp sp hc sc : Option ℚ) :
    ((∀ h s, hp = some h → sp = some s → 0 < s →
        speedup hp sp = some (h / s)) ∧
      (pyPos sp = false → speedup hp sp = none) ∧
      speedup hp (some 0) = none) ∧
    ((∀ h s, hc = some h → sc = some s → 0 < h →
        cost_saving hc sc = some ((h - s) / h * 100)) ∧
      (pyPos hc = false → cost_saving hc sc = none) ∧
      cost_saving (some 0) sc = none) := by
  constructor
  · refine ⟨?_, ?_, ?_⟩
    · intro h s hh hs hpos
      subst hh
      subst hs
      simp [speedup, pyTruthy, pyPos, hpos, hpos.ne']
    · intro hneg
      simp [speedup, hneg]
    · simp [speedup, pyPos]
  · refine ⟨?_, ?_, ?_⟩
    · intro h s hh hs hpos
      subst hh
      subst hs
      simp [cost_saving, pyTruthy, pyPos, hpos, hpos.ne']
    · intro hneg
      simp [cost_saving, hneg]
    · simp [cost_saving, pyTruthy]

/-- C10 witness: the theorem applied to concrete p99 and cost values,
including the guarded zero cases. -/
theorem C10_witness :
    speedup (some 4) (some 2) = some (4 / 2) ∧
    speedup (some 4) (some 0) = none ∧
    cost_saving (some 4) (some 1) = some ((4 - 1) / 4 * 100) ∧
    cost_saving (some 0) (some 1) = none :=
  ⟨(C10_insight_guards (some 4) (some 2) none none).1.1 4 2 rfl rfl
      (by norm_num),
    (C10_insight_guards (some 4) none none none).1.2.2,
    (C10_insight_guards none none (some 4) (some 1)).2.1 4 1 rfl rfl
      (by norm_num),
    (C10_insight_guards none none (some 0) (some 1)).2.2.2⟩
